import Mathlib

/-!
# run_yolo.cpp : the frame-processing loop of the jetnet YOLO driver

A shallow embedding of `src/run_yolo.cpp`.  The two functions of the file,
`process_single_frame` and `main`, are pure functions here: everything the
program observes from its collaborators (OpenCV, the jetnet pipeline handles,
the C library) is read from an explicit `World`, and everything it does to
them is recorded, in program order, in a list of `Event`s.

Undefined behaviour of the C++ program (indexing an empty `std::vector`) is
made explicit: the result is then `none` / `Outcome.undefined`.
-/

namespace RunYolo

/-! ## Data model -/

/-- A `cv::Mat` holding a three-channel image: its size and its pixels. -/
structure Mat where
  rows : Nat
  cols : Nat
  data : List (Nat × Nat × Nat)
deriving DecidableEq, Repr

/-- One detection of the post-processor: a class index and a bounding box
(the confidence is a float and plays no role in the driver). -/
structure Detection where
  class_label_index : Int
  bbox : Int × Int × Int × Int
deriving DecidableEq, Repr

/-- The `struct tm` fields that `std::put_time` reads here.  `tm_mon` counts
from 0 and `tm_year` from 1900, as in the C library. -/
structure Tm where
  tm_sec : Nat
  tm_min : Nat
  tm_hour : Nat
  tm_mday : Nat
  tm_mon : Nat
  tm_year : Int
deriving DecidableEq, Repr

/-- The float that `std::stof` computes from a text; the value itself is not
computed, it is identified by the text it was converted from. -/
structure ParsedFloat where
  text : String
deriving DecidableEq, Repr

/-- What the program does to the outside world, one constructor per call. -/
inductive Event where
  | printMessage
  | printErrors
  | cerr (msg : String)
  | cout (msg : String)
  | factory_construct (num_classes : Nat) (threshold nms_threshold : String)
      (batch_size : Int) (anchor_priors : List ParsedFloat) (enable_profiling : Bool)
  | factory_create (network_type : String)
  | runner_init (model_file : String)
  | camera_open (camera_id : Int)
  | cap_read (frame : Option Mat)
  | register_images (images : List Mat)
  | runner_call (ok : Bool)
  | get_detections
  | imshow (winname : String) (img : Mat)
  | waitKey (key : Int)
  | imwrite (path : String) (img : Mat) (ok : Bool)
  | destroyAllWindows
  | print_profiling
deriving DecidableEq, Repr

/-- What the collaborators answer during one call of `process_single_frame`. -/
structure IterEnv where
  /-- result of `(*runner)()` -/
  runner_ok : Bool
  /-- result of `post->get_detections()` -/
  detections : List (List Detection)
  /-- result of `cv::waitKey(1)`; `-1` when no key was pressed -/
  key : Int
  /-- result of `*std::localtime(&t)` -/
  tm : Tm
  /-- result of `cv::imwrite` -/
  imwrite_ok : Bool

/-! ## `process_single_frame` -/

/-- The conversion `cv::cvtColor(_, _, cv::COLOR_RGB2BGR)`: the first and the
third channel of every pixel change places. -/
def cvtColor_RGB2BGR (src : Mat) : Mat :=
  { src with data := src.data.map fun p => (p.2.2, p.2.1, p.1) }

/-- The loop `for (int i = 0; i < batch_size; ++i) images.push_back(frame);`
entered with counter `i` and vector `images`, run for at most `fuel` rounds. -/
def push_frames (frame : Mat) (batch_size : Int) : Nat → Int → List Mat → List Mat
  | 0, _, images => images
  | fuel + 1, i, images =>
    if i < batch_size then push_frames frame batch_size fuel (i + 1) (images ++ [frame])
    else images

/-- The vector `images` after the loop: the counter starts at 0 and
`batch_size.toNat` rounds always reach the exit test (`push_frames_fuel`). -/
def build_images (frame : Mat) (batch_size : Int) : List Mat :=
  push_frames frame batch_size batch_size.toNat 0 []

/-- Two decimal digits, zero padded (`%d`, `%m`, `%H`, `%M`, `%S`). -/
def pad2 (n : Nat) : String :=
  if n < 10 then "0" ++ toString n else toString n

/-- One conversion specifier of `strftime`, as far as the driver uses them.
Any other character is copied. -/
def strftime_conv (tm : Tm) (c : Char) : String :=
  if c = 'd' then pad2 tm.tm_mday
  else if c = 'm' then pad2 (tm.tm_mon + 1)
  else if c = 'Y' then toString (1900 + tm.tm_year)
  else if c = 'H' then pad2 tm.tm_hour
  else if c = 'M' then pad2 tm.tm_min
  else if c = 'S' then pad2 tm.tm_sec
  else String.mk ['%', c]

/-- The text `std::put_time(&tm, fmt)` writes: `%x` is converted, every other
character is copied. -/
def put_time (tm : Tm) : List Char → String
  | [] => ""
  | [c] => String.mk [c]
  | c :: d :: rest =>
    if c = '%' then strftime_conv tm d ++ put_time tm rest
    else String.mk [c] ++ put_time tm (d :: rest)

/-- The file name of a saved frame:
`oss << "frame_" << std::put_time(&tm, "%d%m%Y%H%M%S") << ".png"`. -/
def save_path (tm : Tm) : String :=
  "frame_" ++ put_time tm "%d%m%Y%H%M%S".data ++ ".png"

/-- The default argument `int batch_size = 1` of `process_single_frame`. -/
def default_batch_size : Int := 1

/-- The function `process_single_frame`.  `draw_detections` is the jetnet
drawing routine.  Returns the events in program order and the result code;
the code is `none` where the C++ indexes an empty vector (`images[0]` or
`detections[0]`). -/
def process_single_frame (draw_detections : List Detection → List String → Mat → Mat)
    (env : IterEnv) (frame : Mat) (class_names : List String) (batch_size : Int) :
    List Event × Option Int :=
  let images := build_images frame batch_size
  let tr := [Event.register_images images]
  if !env.runner_ok then
    (tr ++ [Event.runner_call false, Event.cerr "Failed to run network"], some (-1))
  else
    let tr := tr ++ [Event.runner_call true, Event.get_detections]
    match images.head?, env.detections.head? with
    | some image0, some detections0 =>
      let out := draw_detections detections0 class_names (cvtColor_RGB2BGR image0)
      let tr := tr ++ [Event.imshow "result" out, Event.waitKey env.key]
      if env.key = 113 then
        (tr, some 1)
      else if env.key = 115 then
        let path := save_path env.tm
        (tr ++ [Event.imwrite path frame env.imwrite_ok,
                Event.cout ("Frame saved to " ++ path)], some 0)
      else
        (tr, some 0)
    | _, _ => (tr, none)

/-! ## Observations on a trace -/

/-- The image lists handed to `pre->register_images`, in order. -/
def registered : List Event → List (List Mat)
  | [] => []
  | Event.register_images images :: tr => images :: registered tr
  | _ :: tr => registered tr

/-- The files written by `cv::imwrite`: path and image, in order. -/
def saved : List Event → List (String × Mat)
  | [] => []
  | Event.imwrite path img _ :: tr => (path, img) :: saved tr
  | _ :: tr => saved tr

/-! ## `main` -/

/-- The exceptions `std::stof` throws. -/
inductive StofError where
  | invalid_argument
  | out_of_range
deriving DecidableEq, Repr

/-- How the process ends: `main` returns a code, an exception nobody catches
reaches `std::terminate` (the process is aborted), or the behaviour is
undefined. -/
inductive Outcome where
  | returned (code : Int)
  | uncaught (e : StofError)
  | undefined
deriving DecidableEq, Repr

/-- A run of `main`: the events in program order and how the process ends. -/
structure Run where
  trace : List Event
  outcome : Outcome
deriving DecidableEq, Repr

/-- The command line as `cv::CommandLineParser` sees it.  Options with a
default in the `keys` table are `none` when the user leaves them out. -/
structure CommandLine where
  help : Bool
  type : String
  modelfile : String
  nameslist : String
  cameraid : Int
  profile : Bool
  thresh : Option String
  nmsthresh : Option String
  batch : Option Int
  anchors : Option String
  /-- result of `parser.check()` -/
  check : Bool

/-- Everything outside the program that one session depends on. -/
structure World where
  /-- the jetnet helper `read_text_file`: the lines of the file, `none` when it
  cannot be read -/
  read_text_file : String → Option (List String)
  /-- whether `strtof` reports `ERANGE` for a text it can convert -/
  strtof_erange : String → Bool
  /-- whether the handles `pre`, `runner`, `post` returned by
  `runner_fact.create(network_type)` are non-null -/
  create : String → Bool × Bool × Bool
  /-- result of `runner->init(model_file)` -/
  init : String → Bool
  /-- result of `cap.isOpened()` for the camera index -/
  isOpened : Int → Bool
  camera_width : Nat
  camera_height : Nat
  camera_fps : String
  /-- the frames `cap.read` delivers, in order, before it returns false -/
  frames : List Mat
  /-- the collaborators during the n-th call of `process_single_frame`,
  counted from 0 -/
  iter : Nat → IterEnv
  /-- the jetnet drawing routine -/
  draw_detections : List Detection → List String → Mat → Mat

/-- White space in the C locale. -/
def isspace (c : Char) : Bool :=
  c = ' ' || c = Char.ofNat 9 || c = Char.ofNat 10 || c = Char.ofNat 11
    || c = Char.ofNat 12 || c = Char.ofNat 13

/-- An optional sign is skipped. -/
def skip_sign : List Char → List Char
  | [] => []
  | c :: rest => if c = '+' || c = '-' then rest else c :: rest

/-- Whether a text begins with something `strtof` converts: a digit (decimal
or hexadecimal form), a point followed by a digit, `inf` or `nan` in any
case. -/
def starts_number : List Char → Bool
  | [] => false
  | c :: rest =>
    c.isDigit
      || (c = '.' && (match rest with | [] => false | d :: _ => d.isDigit))
      || ((c :: rest).take 3).map Char.toLower = ['i', 'n', 'f']
      || ((c :: rest).take 3).map Char.toLower = ['n', 'a', 'n']

/-- Whether `strtof` performs a conversion: leading white space and one sign
are skipped, then a number must begin. -/
def strtof_converts (str : String) : Bool :=
  starts_number (skip_sign (str.data.dropWhile isspace))

/-- The call `std::stof(str)`: `std::invalid_argument` when no conversion can
be performed, `std::out_of_range` when `strtof` reports `ERANGE`, otherwise
the float converted from the longest numeric beginning of `str`. -/
def stof (erange : String → Bool) (str : String) : Except StofError ParsedFloat :=
  if !strtof_converts str then Except.error StofError.invalid_argument
  else if erange str then Except.error StofError.out_of_range
  else Except.ok ⟨str⟩

/-- The loop `for (auto str : anchor_priors_str)
anchor_priors.push_back(std::stof(str));`: the first exception leaves it. -/
def parse_anchors (erange : String → Bool) :
    List String → List ParsedFloat → Except StofError (List ParsedFloat)
  | [], anchor_priors => Except.ok anchor_priors
  | str :: rest, anchor_priors =>
    match stof erange str with
    | Except.error e => Except.error e
    | Except.ok v => parse_anchors erange rest (anchor_priors ++ [v])

/-- The block `// read anchors file` of `main`: `none` when the file is given
and cannot be read, otherwise the vector `anchor_priors` or the exception
that left the loop. -/
def read_anchors (w : World) (anchors_file : String) :
    Option (Except StofError (List ParsedFloat)) :=
  if anchors_file ≠ "" then
    match w.read_text_file anchors_file with
    | none => none
    | some anchor_priors_str => some (parse_anchors w.strtof_erange anchor_priors_str [])
  else some (Except.ok [])

/-- The loop `while (cap.read(frame)) { ... }` of `main`, entered at
iteration `i` with the frames the camera still delivers.  Returns its events
and `false` when a call of `process_single_frame` had undefined behaviour. -/
def detection_loop (w : World) (class_names : List String) :
    List Mat → Nat → List Event × Bool
  | [], _ => ([Event.cap_read none], true)
  | frame :: rest, i =>
    let r := process_single_frame w.draw_detections (w.iter i) frame class_names
      default_batch_size
    match r.2 with
    | none => (Event.cap_read (some frame) :: r.1, false)
    | some exit_code =>
      if exit_code = 1 then
        (Event.cap_read (some frame) :: r.1, true)
      else
        let next := detection_loop w class_names rest (i + 1)
        (Event.cap_read (some frame) :: r.1 ++ next.1, next.2)

/-- The function `main`. -/
def main (w : World) (cl : CommandLine) : Run :=
  if cl.help then
    ⟨[Event.printMessage], Outcome.returned (-1)⟩
  else
    let network_type := cl.type
    let input_model_file := cl.modelfile
    let input_names_file := cl.nameslist
    let input_camera_id := cl.cameraid
    let enable_profiling := cl.profile
    let threshold := cl.thresh.getD "0.24"
    let nms_threshold := cl.nmsthresh.getD "0.45"
    let batch_size := cl.batch.getD 1
    let anchors_file := cl.anchors.getD ""
    if !cl.check then
      ⟨[Event.printErrors], Outcome.returned 0⟩
    else
      match w.read_text_file input_names_file with
      | none => ⟨[Event.cerr "Failed to read names file"], Outcome.returned (-1)⟩
      | some class_names =>
        match read_anchors w anchors_file with
        | none => ⟨[Event.cerr "Failed to read anchor priors file"], Outcome.returned (-1)⟩
        | some (Except.error e) => ⟨[], Outcome.uncaught e⟩
        | some (Except.ok anchor_priors) =>
          let tr := [Event.factory_construct class_names.length threshold nms_threshold
                       batch_size anchor_priors enable_profiling,
                     Event.factory_create network_type]
          let handles := w.create network_type
          if !handles.1 || !handles.2.1 || !handles.2.2 then
            ⟨tr ++ [Event.cerr "Failed to create runner"], Outcome.returned (-1)⟩
          else
            let tr := tr ++ [Event.runner_init input_model_file]
            if !w.init input_model_file then
              ⟨tr ++ [Event.cerr "Failed to init runner"], Outcome.returned (-1)⟩
            else
              let tr := tr ++ [Event.camera_open input_camera_id]
              if !w.isOpened input_camera_id then
                ⟨tr, Outcome.returned (-1)⟩
              else
                let tr := tr ++
                  [Event.cout ("Resolution: " ++ toString w.camera_width ++ " x "
                     ++ toString w.camera_height),
                   Event.cout ("Camera FPS: " ++ w.camera_fps)]
                let loop := detection_loop w class_names w.frames 0
                if loop.2 then
                  ⟨tr ++ loop.1 ++ [Event.destroyAllWindows, Event.print_profiling,
                     Event.cout "Success!"], Outcome.returned 0⟩
                else
                  ⟨tr ++ loop.1, Outcome.undefined⟩

/-! ## Observations on a trace, continued -/

/-- The frames delivered by `cap.read`, in order. -/
def captured : List Event → List Mat
  | [] => []
  | Event.cap_read (some frame) :: tr => frame :: captured tr
  | _ :: tr => captured tr

/-- The number of calls `(*runner)()`. -/
def invocations : List Event → Nat
  | [] => 0
  | Event.runner_call _ :: tr => invocations tr + 1
  | _ :: tr => invocations tr

/-- The number of calls `cv::imshow`. -/
def renders : List Event → Nat
  | [] => 0
  | Event.imshow _ _ :: tr => renders tr + 1
  | _ :: tr => renders tr

/-- The number of calls `runner->print_profiling()`. -/
def profiling_calls : List Event → Nat
  | [] => 0
  | Event.print_profiling :: tr => profiling_calls tr + 1
  | _ :: tr => profiling_calls tr

/-- Whether the teardown was reached: `cv::destroyAllWindows()` was called. -/
def reaches_teardown : List Event → Bool
  | [] => false
  | Event.destroyAllWindows :: _ => true
  | _ :: tr => reaches_teardown tr

/-- The messages written to `std::cerr`, in order. -/
def stderr_lines : List Event → List String
  | [] => []
  | Event.cerr msg :: tr => msg :: stderr_lines tr
  | _ :: tr => stderr_lines tr

/-- The anchor lists with which a `YoloRunnerFactory` was constructed. -/
def factory_anchors : List Event → List (List ParsedFloat)
  | [] => []
  | Event.factory_construct _ _ _ _ anchor_priors _ :: tr => anchor_priors :: factory_anchors tr
  | _ :: tr => factory_anchors tr

/-- Whether the factory was constructed or asked to create handles. -/
def factory_used : List Event → Bool
  | [] => false
  | Event.factory_construct _ _ _ _ _ _ :: _ => true
  | Event.factory_create _ :: _ => true
  | _ :: tr => factory_used tr

/-- The events that follow the first poll of the key `q` (empty when `q` is
never polled). -/
def after_quit : List Event → List Event
  | [] => []
  | Event.waitKey key :: tr => if key = 113 then tr else after_quit tr
  | _ :: tr => after_quit tr

/-- Whether the key `q` was polled. -/
def quit_polled : List Event → Bool
  | [] => false
  | Event.waitKey key :: tr => key = 113 || quit_polled tr
  | _ :: tr => quit_polled tr

/-- Whether the process ends with exit status zero. -/
def Outcome.exit_zero : Outcome → Bool
  | Outcome.returned code => code % 256 = 0
  | _ => false

/-! ## Vocabulary of the specification -/

/-- The `struct tm` of a calendar timestamp. -/
def Tm.of_calendar (day month : Nat) (year : Nat) (hour minute second : Nat) : Tm :=
  { tm_sec := second, tm_min := minute, tm_hour := hour, tm_mday := day,
    tm_mon := month - 1, tm_year := (year : Int) - 1900 }

/-- The two decimal digits of a number below 100. -/
def two_digits (n : Nat) : List Char :=
  [Nat.digitChar (n / 10), Nat.digitChar (n % 10)]

/-- The four decimal digits of a number below 10000. -/
def four_digits (n : Nat) : List Char :=
  [Nat.digitChar (n / 1000), Nat.digitChar (n / 100 % 10), Nat.digitChar (n / 10 % 10),
   Nat.digitChar (n % 10)]

/-- The fourteen digits DDMMYYYYHHMMSS of a timestamp. -/
def timestamp_digits (day month year hour minute second : Nat) : List Char :=
  two_digits day ++ two_digits month ++ four_digits year ++ two_digits hour
    ++ two_digits minute ++ two_digits second

/-- Characters that are, as a whole, an unsigned decimal floating-point
number: digits with an optional point (at least one digit) and an optional
exponent. -/
def is_float_chars (cs : List Char) : Bool :=
  let int_rest := cs.dropWhile Char.isDigit
  let n_int := cs.length - int_rest.length
  let frac : List Char × Nat :=
    match int_rest with
    | [] => ([], 0)
    | c :: r =>
      if c = '.' then (r.dropWhile Char.isDigit, r.length - (r.dropWhile Char.isDigit).length)
      else (c :: r, 0)
  decide (0 < n_int + frac.2) &&
    (match frac.1 with
     | [] => true
     | e :: r =>
       (e = 'e' || e = 'E') && !(skip_sign r).isEmpty && (skip_sign r).all Char.isDigit)

/-- A text that is, as a whole, a decimal floating-point number: an optional
sign, then `is_float_chars`. -/
def is_float_text (s : String) : Bool := is_float_chars (skip_sign s.data)

/-! ## Concrete sessions -/

/-- A one-pixel frame. -/
def frame_a : Mat := ⟨1, 1, [(10, 20, 30)]⟩

/-- A second one-pixel frame. -/
def frame_b : Mat := ⟨1, 1, [(40, 50, 60)]⟩

/-- A third one-pixel frame. -/
def frame_c : Mat := ⟨1, 1, [(70, 80, 90)]⟩

/-- A drawing routine that finds nothing to draw. -/
def draw_nothing : List Detection → List String → Mat → Mat := fun _ _ img => img

/-- One iteration: the runner result and the key are given, the post-processor
returns one empty detection list, the clock shows 05.03.2024 07:08:09 and the
image write fails. -/
def env_of (runner_ok : Bool) (key : Int) : IterEnv :=
  ⟨runner_ok, [[]], key, Tm.of_calendar 5 3 2024 7 8 9, false⟩

/-- A command line with the four positional arguments and no option. -/
def plain_args : CommandLine :=
  ⟨false, "yolov3", "yolov3.plan", "coco.names", 0, false, none, none, none, none, true⟩

/-- A world in which every start-up step succeeds: the names file has two
lines, the file `anchors.txt` has the given lines, the camera delivers the
given frames. -/
def world_of (anchor_lines : List String) (frames : List Mat) (iter : Nat → IterEnv) : World :=
  ⟨fun path => if path = "coco.names" then some ["person", "car"]
      else if path = "anchors.txt" then some anchor_lines else none,
   fun _ => false, fun _ => (true, true, true), fun _ => true, fun _ => true,
   640, 480, "30", frames, iter, draw_nothing⟩

/-- Whether the capture loop was entered: `cap.read` was called. -/
def loop_entered : List Event → Bool
  | [] => false
  | Event.cap_read _ :: _ => true
  | _ :: tr => loop_entered tr

/-- The profiling flags with which a `YoloRunnerFactory` was constructed. -/
def factory_profiling : List Event → List Bool
  | [] => []
  | Event.factory_construct _ _ _ _ _ enable_profiling :: tr =>
    enable_profiling :: factory_profiling tr
  | _ :: tr => factory_profiling tr

/-- The command line `plain_args` with the option `batch` given. -/
def batch_args (batch : Int) : CommandLine :=
  ⟨false, "yolov3", "yolov3.plan", "coco.names", 0, false, none, none, some batch, none, true⟩

/-- The command line `plain_args` with the option `anchors=anchors.txt`. -/
def anchors_args : CommandLine :=
  ⟨false, "yolov3", "yolov3.plan", "coco.names", 0, false, none, none, none,
    some "anchors.txt", true⟩

/-- A command line on which `parser.check()` fails: the camera index is
missing. -/
def incomplete_args : CommandLine :=
  ⟨false, "yolov3", "yolov3.plan", "coco.names", 0, false, none, none, none, none, false⟩

/-- A world in which the start-up fails at the given stage: the factory
returns an empty runner handle (stage 0), `runner->init` fails (stage 1) or
the camera does not open (stage 2). -/
def failing_world (stage : Nat) : World :=
  ⟨fun path => if path = "coco.names" then some ["person", "car"] else none,
   fun _ => false, fun _ => (true, decide (stage ≠ 0), true), fun _ => decide (stage ≠ 1),
   fun _ => decide (stage ≠ 2), 640, 480, "30", [frame_a], fun _ => env_of true (-1),
   draw_nothing⟩

/-- The batch sizes with which a `YoloRunnerFactory` was constructed. -/
def factory_batch : List Event → List Int
  | [] => []
  | Event.factory_construct _ _ _ batch_size _ _ :: tr => batch_size :: factory_batch tr
  | _ :: tr => factory_batch tr

/-- The command line with the option `profile` replaced. -/
def with_profile (cl : CommandLine) (profile : Bool) : CommandLine :=
  ⟨cl.help, cl.type, cl.modelfile, cl.nameslist, cl.cameraid, profile, cl.thresh,
    cl.nmsthresh, cl.batch, cl.anchors, cl.check⟩

/-- An event with the profiling flag of the factory constructor blanked;
every other event, and every other argument of the constructor, is kept. -/
def forget_profiling : Event → Event
  | Event.factory_construct num_classes threshold nms_threshold batch_size anchor_priors _ =>
    Event.factory_construct num_classes threshold nms_threshold batch_size anchor_priors false
  | e => e

/-! ## The batch loop -/

theorem push_frames_spec (frame : Mat) (batch_size : Int) :
    ∀ (fuel : Nat) (i : Int) (images : List Mat), 0 ≤ i → (batch_size - i).toNat ≤ fuel →
      push_frames frame batch_size fuel i images
        = images ++ List.replicate (batch_size - i).toNat frame := by
  intro fuel
  induction fuel with
  | zero =>
    intro i images _ h
    have h0 : (batch_size - i).toNat = 0 := Nat.le_zero.mp h
    simp [push_frames, h0]
  | succ fuel ih =>
    intro i images hi h
    unfold push_frames
    by_cases hlt : i < batch_size
    · have hstep : (batch_size - i).toNat = (batch_size - (i + 1)).toNat + 1 := by omega
      rw [if_pos hlt, ih (i + 1) (images ++ [frame]) (by omega) (by omega), hstep,
        List.replicate_succ]
      simp
    · have h0 : (batch_size - i).toNat = 0 := by omega
      rw [if_neg hlt, h0]
      simp

/-- More fuel than `batch_size.toNat` does not change the vector: the loop
leaves through its exit test. -/
theorem push_frames_fuel (frame : Mat) (batch_size : Int) (extra : Nat) :
    push_frames frame batch_size (batch_size.toNat + extra) 0 []
      = build_images frame batch_size := by
  unfold build_images
  rw [push_frames_spec frame batch_size _ 0 [] (le_refl 0) (by simp),
    push_frames_spec frame batch_size _ 0 [] (le_refl 0) (by simp)]

theorem build_images_eq (frame : Mat) (batch_size : Int) :
    build_images frame batch_size = List.replicate batch_size.toNat frame := by
  unfold build_images
  rw [push_frames_spec frame batch_size _ 0 [] (le_refl 0) (by simp)]
  simp


theorem build_images_head (frame : Mat) (batch_size : Int) (h : 1 ≤ batch_size) :
    (build_images frame batch_size).head? = some frame := by
  rw [build_images_eq]
  obtain ⟨m, hm⟩ : ∃ m, batch_size.toNat = m + 1 := ⟨batch_size.toNat - 1, by omega⟩
  rw [hm, List.replicate_succ]
  rfl

/-! ## One call of `process_single_frame` -/

/-- The events of a call in which the runner succeeds. -/
theorem process_single_frame_trace
    (draw_detections : List Detection → List String → Mat → Mat) (env : IterEnv) (frame : Mat)
    (class_names : List String) (batch_size : Int) (hN : 1 ≤ batch_size)
    (hrun : env.runner_ok = true) (d : List Detection) (ds : List (List Detection))
    (hdet : env.detections = d :: ds) :
    process_single_frame draw_detections env frame class_names batch_size
      = ([Event.register_images (build_images frame batch_size), Event.runner_call true,
          Event.get_detections,
          Event.imshow "result" (draw_detections d class_names (cvtColor_RGB2BGR frame)),
          Event.waitKey env.key]
          ++ (if env.key = 113 then []
              else if env.key = 115 then
                [Event.imwrite (save_path env.tm) frame env.imwrite_ok,
                 Event.cout ("Frame saved to " ++ save_path env.tm)]
              else []),
         some (if env.key = 113 then 1 else 0)) := by
  unfold process_single_frame
  simp only [hrun, build_images_head frame batch_size hN, hdet, List.head?_cons]
  by_cases hq : env.key = 113
  · simp [hq]
  · by_cases hs : env.key = 115
    · simp [hs]
    · simp [hq, hs]

/-- The events of a call in which the runner fails. -/
theorem process_single_frame_failure
    (draw_detections : List Detection → List String → Mat → Mat) (env : IterEnv) (frame : Mat)
    (class_names : List String) (batch_size : Int) (hrun : env.runner_ok = false) :
    process_single_frame draw_detections env frame class_names batch_size
      = ([Event.register_images (build_images frame batch_size), Event.runner_call false,
          Event.cerr "Failed to run network"], some (-1)) := by
  unfold process_single_frame
  simp [hrun]

/-! ## The timestamp in the file name -/

theorem toDigitsCore_step (fuel n : Nat) (ds : List Char) :
    Nat.toDigitsCore 10 (fuel + 1) n ds
      = if n / 10 = 0 then Nat.digitChar (n % 10) :: ds
        else Nat.toDigitsCore 10 fuel (n / 10) (Nat.digitChar (n % 10) :: ds) := by
  simp [Nat.toDigitsCore]

theorem toString_one_digit (n : Nat) (h : n < 10) :
    toString n = String.mk [Nat.digitChar n] := by
  show Nat.repr n = _
  unfold Nat.repr Nat.toDigits
  rw [toDigitsCore_step, if_pos (by omega), Nat.mod_eq_of_lt h]
  rfl

theorem toString_two_digits (n : Nat) (h1 : 10 ≤ n) (h : n < 100) :
    toString n = String.mk (two_digits n) := by
  show Nat.repr n = _
  unfold Nat.repr Nat.toDigits two_digits
  obtain ⟨k, rfl⟩ : ∃ k, n = k + 1 := ⟨n - 1, by omega⟩
  rw [toDigitsCore_step, if_neg (by omega), toDigitsCore_step, if_pos (by omega)]
  have e : (k + 1) / 10 % 10 = (k + 1) / 10 := by omega
  rw [e]
  rfl

theorem toString_four_digits (n : Nat) (h1 : 1000 ≤ n) (h : n < 10000) :
    toString n = String.mk (four_digits n) := by
  show Nat.repr n = _
  unfold Nat.repr Nat.toDigits four_digits
  obtain ⟨k, rfl⟩ : ∃ k, n = k + 3 := ⟨n - 3, by omega⟩
  rw [toDigitsCore_step, if_neg (by omega), toDigitsCore_step, if_neg (by omega),
    toDigitsCore_step, if_neg (by omega), toDigitsCore_step, if_pos (by omega)]
  have e1 : (k + 3) / 10 / 10 / 10 % 10 = (k + 3) / 1000 := by omega
  have e2 : (k + 3) / 10 / 10 % 10 = (k + 3) / 100 % 10 := by omega
  rw [e1, e2]
  rfl

theorem pad2_eq (n : Nat) (h : n < 100) : pad2 n = String.mk (two_digits n) := by
  unfold pad2
  by_cases h10 : n < 10
  · rw [if_pos h10, toString_one_digit n h10]
    have e1 : n / 10 = 0 := by omega
    have e2 : n % 10 = n := by omega
    unfold two_digits
    rw [e1, e2]
    rfl
  · rw [if_neg h10, toString_two_digits n (by omega) h]

theorem year_eq (year : Nat) (h1 : 1000 ≤ year) (h : year < 10000) :
    toString ((1900 : Int) + ((year : Int) - 1900)) = String.mk (four_digits year) := by
  have e : (1900 : Int) + ((year : Int) - 1900) = (year : Int) := by ring
  rw [e]
  exact toString_four_digits year h1 h

theorem put_time_format (tm : Tm) :
    put_time tm "%d%m%Y%H%M%S".data
      = pad2 tm.tm_mday ++ (pad2 (tm.tm_mon + 1) ++ (toString (1900 + tm.tm_year)
          ++ (pad2 tm.tm_hour ++ (pad2 tm.tm_min ++ (pad2 tm.tm_sec ++ ""))))) := by
  have e : "%d%m%Y%H%M%S".data
      = ['%', 'd', '%', 'm', '%', 'Y', '%', 'H', '%', 'M', '%', 'S'] := rfl
  rw [e]
  simp [put_time, strftime_conv]

theorem save_path_eq (day month year hour minute second : Nat)
    (hd : day < 100) (hm1 : 1 ≤ month) (hm : month < 100)
    (hy1 : 1000 ≤ year) (hy : year < 10000) (hh : hour < 100) (hmin : minute < 100)
    (hs : second < 100) :
    save_path (Tm.of_calendar day month year hour minute second)
      = String.mk ("frame_".data ++ timestamp_digits day month year hour minute second
          ++ ".png".data) := by
  unfold save_path
  rw [put_time_format]
  have em : month - 1 + 1 = month := by omega
  simp only [Tm.of_calendar, em]
  rw [pad2_eq day hd, pad2_eq month hm, year_eq year hy1 hy, pad2_eq hour hh,
    pad2_eq minute hmin, pad2_eq second hs]
  unfold timestamp_digits
  apply String.ext
  simp [String.data_append]


/-! ## Claims about one call -/

/-- C1. Batch Builder: for every frame and every batch size N >= 1, the only
image list that `process_single_frame` registers with the pre-processor is
the list it built, that list has exactly N elements, and each of them equals
the frame. -/
theorem batch_builder_replicates
    (draw_detections : List Detection → List String → Mat → Mat) (env : IterEnv) (frame : Mat)
    (class_names : List String) (batch_size : Int) (hN : 1 ≤ batch_size) :
    registered (process_single_frame draw_detections env frame class_names batch_size).1
        = [build_images frame batch_size]
      ∧ ((build_images frame batch_size).length : Int) = batch_size
      ∧ ∀ image ∈ build_images frame batch_size, image = frame := by
  refine ⟨?_, ?_, ?_⟩
  · cases hrun : env.runner_ok with
    | false =>
      rw [process_single_frame_failure draw_detections env frame class_names batch_size hrun]
      rfl
    | true =>
      cases hdet : env.detections with
      | nil =>
        unfold process_single_frame
        simp [hrun, hdet, build_images_head frame batch_size hN, registered]
      | cons d ds =>
        rw [process_single_frame_trace draw_detections env frame class_names batch_size hN hrun
          d ds hdet]
        by_cases hq : env.key = 113
        · simp [hq, registered]
        · by_cases hs : env.key = 115
          · simp [hs, registered]
          · simp [hq, hs, registered]
  · rw [build_images_eq, List.length_replicate]
    omega
  · intro image himage
    rw [build_images_eq] at himage
    exact List.eq_of_mem_replicate himage

/-- C1 at batch size 3: three copies of `frame_a` are registered. -/
theorem batch_builder_replicates_witness :
    (1 : Int) ≤ 3
      ∧ registered (process_single_frame draw_nothing (env_of true 115) frame_a [] 3).1
          = [build_images frame_a 3]
      ∧ ((build_images frame_a 3).length : Int) = 3
      ∧ ∀ image ∈ build_images frame_a 3, image = frame_a :=
  ⟨by decide, batch_builder_replicates draw_nothing (env_of true 115) frame_a [] 3 (by decide)⟩

/-- C3. Result code of `process_single_frame`, for every frame, batch size
>= 1 and key-code (the post-processor returning at least one detection list,
as its contract says): the code is -1 exactly when the runner call fails;
when the runner succeeds it is 1 exactly when the key-code is `q` (113) and 0
for every other key-code, among them `s` (115) and the value -1 of "no key". -/
theorem result_code
    (draw_detections : List Detection → List String → Mat → Mat) (env : IterEnv) (frame : Mat)
    (class_names : List String) (batch_size : Int) (hN : 1 ≤ batch_size)
    (hdet : env.detections ≠ []) :
    ((process_single_frame draw_detections env frame class_names batch_size).2 = some (-1)
        ↔ env.runner_ok = false)
      ∧ (env.runner_ok = true →
          ((process_single_frame draw_detections env frame class_names batch_size).2 = some 1
              ↔ env.key = 113)
            ∧ (env.key ≠ 113 →
                (process_single_frame draw_detections env frame class_names batch_size).2
                  = some 0)) := by
  cases hrun : env.runner_ok with
  | false =>
    rw [process_single_frame_failure draw_detections env frame class_names batch_size hrun]
    simp
  | true =>
    obtain ⟨d, ds, hd⟩ := List.exists_cons_of_ne_nil hdet
    rw [process_single_frame_trace draw_detections env frame class_names batch_size hN hrun
      d ds hd]
    by_cases hq : env.key = 113
    · simp [hq]
    · simp [hq]

/-- C3 at batch size 1 with no key pressed (key-code -1). -/
theorem result_code_witness :
    ((process_single_frame draw_nothing (env_of true (-1)) frame_a [] 1).2 = some (-1)
        ↔ (env_of true (-1)).runner_ok = false)
      ∧ ((env_of true (-1)).runner_ok = true →
          ((process_single_frame draw_nothing (env_of true (-1)) frame_a [] 1).2 = some 1
              ↔ (env_of true (-1)).key = 113)
            ∧ ((env_of true (-1)).key ≠ 113 →
                (process_single_frame draw_nothing (env_of true (-1)) frame_a [] 1).2
                  = some 0)) :=
  result_code draw_nothing (env_of true (-1)) frame_a [] 1 (by decide) (by decide)

/-- C8. Save command: for every timestamp (day, month, four-digit year, hour,
minute, second) and every frame, when the runner succeeds and the key-code is
`s` (115), exactly one file is written: its path is `frame_`, the fourteen
zero-padded digits DDMMYYYYHHMMSS and `.png`, its content is the raw input
frame, and the result code is 0 whatever the image write returns. -/
theorem save_command
    (draw_detections : List Detection → List String → Mat → Mat) (env : IterEnv) (frame : Mat)
    (class_names : List String) (batch_size : Int)
    (day month year hour minute second : Nat)
    (hN : 1 ≤ batch_size) (hdet : env.detections ≠ [])
    (hrun : env.runner_ok = true) (hkey : env.key = 115)
    (htm : env.tm = Tm.of_calendar day month year hour minute second)
    (hday : 1 ≤ day ∧ day ≤ 31) (hmonth : 1 ≤ month ∧ month ≤ 12)
    (hyear : 1000 ≤ year ∧ year ≤ 9999)
    (hhour : hour ≤ 23) (hminute : minute ≤ 59) (hsecond : second ≤ 60) :
    saved (process_single_frame draw_detections env frame class_names batch_size).1
        = [(String.mk ("frame_".data
              ++ timestamp_digits day month year hour minute second ++ ".png".data), frame)]
      ∧ (process_single_frame draw_detections env frame class_names batch_size).2 = some 0 := by
  obtain ⟨d, ds, hd⟩ := List.exists_cons_of_ne_nil hdet
  rw [process_single_frame_trace draw_detections env frame class_names batch_size hN hrun d ds hd]
  have hpath := save_path_eq day month year hour minute second (by omega) hmonth.1 (by omega)
    hyear.1 (by omega) (by omega) (by omega) (by omega)
  rw [htm, hpath, hkey]
  simp [saved]

/-- C8 on 05.03.2024 at 07:08:09, with an image write that fails. -/
theorem save_command_witness :
    saved (process_single_frame draw_nothing (env_of true 115) frame_a [] 1).1
        = [(String.mk ("frame_".data ++ timestamp_digits 5 3 2024 7 8 9 ++ ".png".data), frame_a)]
      ∧ (process_single_frame draw_nothing (env_of true 115) frame_a [] 1).2 = some 0 :=
  save_command draw_nothing (env_of true 115) frame_a [] 1 5 3 2024 7 8 9 (by decide)
    (by decide) rfl rfl rfl (by decide) (by decide) (by decide) (by decide) (by decide)
    (by decide)


/-! ## Observations distribute over concatenation -/

theorem captured_append (a b : List Event) : captured (a ++ b) = captured a ++ captured b := by
  induction a with
  | nil => rfl
  | cons e a ih =>
    cases e with
    | cap_read frame => cases frame <;> simp [captured, ih]
    | _ => simp [captured, ih]

theorem invocations_append (a b : List Event) :
    invocations (a ++ b) = invocations a + invocations b := by
  induction a with
  | nil => simp [invocations]
  | cons e a ih =>
    cases e <;> simp [invocations, ih]
    omega

theorem renders_append (a b : List Event) : renders (a ++ b) = renders a + renders b := by
  induction a with
  | nil => simp [renders]
  | cons e a ih =>
    cases e <;> simp [renders, ih]
    omega

theorem profiling_calls_append (a b : List Event) :
    profiling_calls (a ++ b) = profiling_calls a + profiling_calls b := by
  induction a with
  | nil => simp [profiling_calls]
  | cons e a ih =>
    cases e <;> simp [profiling_calls, ih]
    omega

theorem reaches_teardown_append (a b : List Event) :
    reaches_teardown (a ++ b) = (reaches_teardown a || reaches_teardown b) := by
  induction a with
  | nil => simp [reaches_teardown]
  | cons e a ih => cases e <;> simp [reaches_teardown, ih]

theorem loop_entered_append (a b : List Event) :
    loop_entered (a ++ b) = (loop_entered a || loop_entered b) := by
  induction a with
  | nil => simp [loop_entered]
  | cons e a ih => cases e <;> simp [loop_entered, ih]

theorem quit_polled_append (a b : List Event) :
    quit_polled (a ++ b) = (quit_polled a || quit_polled b) := by
  induction a with
  | nil => simp [quit_polled]
  | cons e a ih => cases e <;> simp [quit_polled, ih, Bool.or_assoc]

theorem factory_profiling_append (a b : List Event) :
    factory_profiling (a ++ b) = factory_profiling a ++ factory_profiling b := by
  induction a with
  | nil => rfl
  | cons e a ih => cases e <;> simp [factory_profiling, ih]

theorem after_quit_append (a b : List Event) (h : quit_polled a = false) :
    after_quit (a ++ b) = after_quit b := by
  induction a with
  | nil => rfl
  | cons e a ih =>
    cases e with
    | waitKey key =>
      simp only [quit_polled, Bool.or_eq_false_iff, decide_eq_false_iff_not] at h
      simp [after_quit, h.1, ih h.2]
    | _ => simp [quit_polled] at h; simp [after_quit, ih h]

/-! ## What one call contributes to the trace -/

/-- A call never prints the profiling and never closes the windows, and it
takes no frame from the camera. -/
theorem call_quiet (draw_detections : List Detection → List String → Mat → Mat)
    (env : IterEnv) (frame : Mat) (class_names : List String) (batch_size : Int) :
    profiling_calls (process_single_frame draw_detections env frame class_names batch_size).1 = 0
      ∧ reaches_teardown
          (process_single_frame draw_detections env frame class_names batch_size).1 = false
      ∧ captured (process_single_frame draw_detections env frame class_names batch_size).1 = []
      ∧ factory_profiling
          (process_single_frame draw_detections env frame class_names batch_size).1 = [] := by
  unfold process_single_frame
  cases env.runner_ok <;> simp [profiling_calls, reaches_teardown, captured, factory_profiling]
  all_goals (split <;> [skip; simp [profiling_calls, reaches_teardown, captured,
    factory_profiling]])
  all_goals (split_ifs <;> simp [profiling_calls, reaches_teardown, captured,
    factory_profiling])


/-! ## The capture loop -/

/-- The loop never prints the profiling, never closes the windows and never
constructs a factory; whenever it is entered, `cap.read` is called. -/
theorem detection_loop_quiet (w : World) (class_names : List String) :
    ∀ (frames : List Mat) (i : Nat),
      profiling_calls (detection_loop w class_names frames i).1 = 0
        ∧ reaches_teardown (detection_loop w class_names frames i).1 = false
        ∧ factory_profiling (detection_loop w class_names frames i).1 = []
        ∧ loop_entered (detection_loop w class_names frames i).1 = true := by
  intro frames
  induction frames with
  | nil => intro i; simp [detection_loop, profiling_calls, reaches_teardown, factory_profiling,
      loop_entered]
  | cons frame rest ih =>
    intro i
    obtain ⟨h1, h2, _, h4⟩ := call_quiet w.draw_detections (w.iter i) frame class_names
      default_batch_size
    obtain ⟨i1, i2, i3, _⟩ := ih (i + 1)
    unfold detection_loop
    dsimp only
    generalize process_single_frame w.draw_detections (w.iter i) frame class_names
      default_batch_size = r at h1 h2 h4
    obtain ⟨tr, code⟩ := r
    cases code with
    | none => simp_all [profiling_calls, reaches_teardown, factory_profiling, loop_entered]
    | some c =>
      by_cases hc : c = 1
      · simp_all [profiling_calls, reaches_teardown, factory_profiling, loop_entered]
      · simp_all [profiling_calls, reaches_teardown, factory_profiling, loop_entered,
          profiling_calls_append, reaches_teardown_append, factory_profiling_append]

/-- The loop with the key `q` first polled in its round `n + 1`, every runner
call up to there succeeding and the post-processor returning at least one
detection list each time: `n + 1` frames are taken, each is run and rendered
once, and nothing is taken after the poll of `q`. -/
theorem detection_loop_quit (w : World) (class_names : List String) :
    ∀ (n : Nat) (frames : List Mat) (i : Nat), n < frames.length →
      (∀ j, j ≤ n → (w.iter (i + j)).runner_ok = true) →
      (∀ j, j ≤ n → (w.iter (i + j)).detections ≠ []) →
      (∀ j, j < n → (w.iter (i + j)).key ≠ 113) →
      (w.iter (i + n)).key = 113 →
      (detection_loop w class_names frames i).2 = true
        ∧ captured (detection_loop w class_names frames i).1 = frames.take (n + 1)
        ∧ invocations (detection_loop w class_names frames i).1 = n + 1
        ∧ renders (detection_loop w class_names frames i).1 = n + 1
        ∧ quit_polled (detection_loop w class_names frames i).1 = true
        ∧ captured (after_quit (detection_loop w class_names frames i).1) = [] := by
  intro n
  induction n with
  | zero =>
    intro frames i hlen hrun hdet _ hq
    cases frames with
    | nil => simp at hlen
    | cons frame rest =>
      obtain ⟨d, ds, hd⟩ := List.exists_cons_of_ne_nil (hdet 0 (le_refl 0))
      have hq0 : (w.iter i).key = 113 := hq
      unfold detection_loop
      rw [process_single_frame_trace w.draw_detections (w.iter i) frame class_names
        default_batch_size (by decide) (hrun 0 (le_refl 0)) d ds hd]
      simp [hq0, captured, invocations, renders, quit_polled, after_quit]
  | succ n ih =>
    intro frames i hlen hrun hdet hkey hq
    cases frames with
    | nil => simp at hlen
    | cons frame rest =>
      obtain ⟨d, ds, hd⟩ := List.exists_cons_of_ne_nil (hdet 0 (Nat.zero_le _))
      have hk0 : (w.iter i).key ≠ 113 := hkey 0 (Nat.succ_pos n)
      have hlen1 : n < rest.length := by simpa using hlen
      have hshift : ∀ j, i + 1 + j = i + (j + 1) := fun j => by omega
      obtain ⟨r1, r2, r3, r4, r5, r6⟩ := ih rest (i + 1) hlen1
        (fun j hj => by rw [hshift]; exact hrun (j + 1) (by omega))
        (fun j hj => by rw [hshift]; exact hdet (j + 1) (by omega))
        (fun j hj => by rw [hshift]; exact hkey (j + 1) (by omega))
        (by rw [hshift]; exact hq)
      unfold detection_loop
      rw [process_single_frame_trace w.draw_detections (w.iter i) frame class_names
        default_batch_size (by decide) (hrun 0 (Nat.zero_le _)) d ds hd]
      by_cases hs : (w.iter i).key = 115
      · simp [hs, captured, invocations, renders, quit_polled, after_quit, r1, r2, r3, r4, r5, r6]
      · simp [hk0, hs, captured, invocations, renders, quit_polled, after_quit, r1, r2, r3, r4,
          r5, r6]


/-! ## The shape of a run of `main` -/

/-- A run of `main` either ends during start-up, before the capture loop, or
it is a session: start-up events, the loop, and (unless the behaviour is
undefined) the teardown and the return code 0. -/
theorem main_shape (w : World) (cl : CommandLine) :
    (loop_entered (main w cl).trace = false ∧ reaches_teardown (main w cl).trace = false
        ∧ captured (main w cl).trace = [] ∧ invocations (main w cl).trace = 0
        ∧ ((main w cl).outcome.exit_zero = true → cl.help = false ∧ cl.check = false))
      ∨ ∃ (class_names : List String) (pre : List Event),
          captured pre = [] ∧ invocations pre = 0 ∧ renders pre = 0 ∧ quit_polled pre = false
            ∧ profiling_calls pre = 0 ∧ reaches_teardown pre = false
            ∧ factory_profiling pre = [cl.profile]
            ∧ main w cl =
                if (detection_loop w class_names w.frames 0).2 = true then
                  ⟨pre ++ (detection_loop w class_names w.frames 0).1
                     ++ [Event.destroyAllWindows, Event.print_profiling, Event.cout "Success!"],
                   Outcome.returned 0⟩
                else
                  ⟨pre ++ (detection_loop w class_names w.frames 0).1, Outcome.undefined⟩ := by
  by_cases hhelp : cl.help = true
  · left
    simp [main, hhelp, loop_entered, reaches_teardown, captured, invocations, Outcome.exit_zero]
  by_cases hcheck : cl.check = true
  swap
  · left
    simp [main, hhelp, hcheck, loop_entered, reaches_teardown, captured, invocations,
      Outcome.exit_zero]
  cases hnames : w.read_text_file cl.nameslist with
  | none =>
    left
    simp [main, hhelp, hcheck, hnames, loop_entered, reaches_teardown, captured, invocations,
      Outcome.exit_zero]
  | some class_names =>
    cases hanch : read_anchors w (cl.anchors.getD "") with
    | none =>
      left
      simp [main, hhelp, hcheck, hnames, hanch, loop_entered, reaches_teardown, captured,
        invocations, Outcome.exit_zero]
    | some parsed =>
      cases parsed with
      | error e =>
        left
        simp [main, hhelp, hcheck, hnames, hanch, loop_entered, reaches_teardown, captured,
          invocations, Outcome.exit_zero]
      | ok anchor_priors =>
        by_cases hcreate : (!(w.create cl.type).1 || !(w.create cl.type).2.1
            || !(w.create cl.type).2.2) = true
        · left
          simp only [main, hhelp, hcheck, hnames, hanch, hcreate]
          simp [loop_entered, reaches_teardown, captured, invocations, Outcome.exit_zero]
        by_cases hinit : w.init cl.modelfile = true
        swap
        · left
          simp only [main, hhelp, hcheck, hnames, hanch, hcreate]
          simp [hinit, loop_entered, reaches_teardown, captured, invocations, Outcome.exit_zero]
        by_cases hopen : w.isOpened cl.cameraid = true
        swap
        · left
          simp only [main, hhelp, hcheck, hnames, hanch, hcreate]
          simp [hinit, hopen, loop_entered, reaches_teardown, captured, invocations,
            Outcome.exit_zero]
        right
        refine ⟨class_names,
          [Event.factory_construct class_names.length (cl.thresh.getD "0.24")
             (cl.nmsthresh.getD "0.45") (cl.batch.getD 1) anchor_priors cl.profile,
           Event.factory_create cl.type, Event.runner_init cl.modelfile,
           Event.camera_open cl.cameraid,
           Event.cout ("Resolution: " ++ toString w.camera_width ++ " x "
             ++ toString w.camera_height),
           Event.cout ("Camera FPS: " ++ w.camera_fps)], rfl, rfl, rfl, rfl, rfl, rfl, rfl, ?_⟩
        simp only [main, hhelp, hcheck, hnames, hanch, hcreate]
        simp [hinit, hopen]


theorem after_quit_append_polled (a b : List Event) (h : quit_polled a = true) :
    after_quit (a ++ b) = after_quit a ++ b := by
  induction a with
  | nil => simp [quit_polled] at h
  | cons e a ih =>
    cases e with
    | waitKey key =>
      by_cases hk : key = 113
      · simp [after_quit, hk]
      · simp only [quit_polled, hk, decide_False, Bool.false_or] at h
        simp [after_quit, hk, ih h]
    | _ => simp [quit_polled] at h; simp [after_quit, ih h]

/-! ## Claims about a session -/

/-- C4. Quit: in every session in which the runner calls of the first k
iterations succeed (the post-processor returning at least one detection list
each time), the key `q` is first polled on iteration k and the camera can
deliver k frames, exactly k frames are captured, the runner is invoked k
times and k images are rendered; no frame is captured after the poll of `q`,
the teardown is reached and `main` returns 0.  Scenario E is k = 3. -/
theorem quit_ends_session (w : World) (cl : CommandLine) (k : Nat)
    (hsession : loop_entered (main w cl).trace = true)
    (hk : 1 ≤ k) (hframes : k ≤ w.frames.length)
    (hrun : ∀ i, i < k → (w.iter i).runner_ok = true)
    (hdet : ∀ i, i < k → (w.iter i).detections ≠ [])
    (hkeys : ∀ i, i + 1 < k → (w.iter i).key ≠ 113)
    (hquit : (w.iter (k - 1)).key = 113) :
    captured (main w cl).trace = w.frames.take k
      ∧ invocations (main w cl).trace = k
      ∧ renders (main w cl).trace = k
      ∧ quit_polled (main w cl).trace = true
      ∧ captured (after_quit (main w cl).trace) = []
      ∧ reaches_teardown (main w cl).trace = true
      ∧ (main w cl).outcome = Outcome.returned 0 := by
  obtain ⟨n, rfl⟩ : ∃ n, k = n + 1 := ⟨k - 1, by omega⟩
  rcases main_shape w cl with hstart | ⟨class_names, pre, p1, p2, p3, p4, _, _, _, hmain⟩
  · rw [hstart.1] at hsession
    exact absurd hsession (by decide)
  · obtain ⟨l1, l2, l3, l4, l5, l6⟩ := detection_loop_quit w class_names n w.frames 0
      (by omega)
      (fun j hj => by rw [Nat.zero_add]; exact hrun j (by omega))
      (fun j hj => by rw [Nat.zero_add]; exact hdet j (by omega))
      (fun j hj => by rw [Nat.zero_add]; exact hkeys j (by omega))
      (by rw [Nat.zero_add]; exact hquit)
    rw [hmain, if_pos l1]
    have hq : quit_polled (pre ++ (detection_loop w class_names w.frames 0).1) = true := by
      rw [quit_polled_append, l5, Bool.or_true]
    refine ⟨?_, ?_, ?_, ?_, ?_, ?_, rfl⟩
    · simp [captured_append, p1, l2, captured]
    · simp [invocations_append, p2, l3, invocations]
    · simp [renders_append, p3, l4, renders]
    · simp [quit_polled_append, l5]
    · show captured (after_quit (pre ++ (detection_loop w class_names w.frames 0).1 ++ _)) = []
      rw [after_quit_append_polled _ _ hq, after_quit_append _ _ p4, captured_append, l6]
      rfl
    · simp [reaches_teardown_append, reaches_teardown]

/-- C4 in Scenario E: four frames are available, `q` is polled on iteration
3, three frames are captured. -/
theorem quit_ends_session_witness :
    captured (main (world_of [] [frame_a, frame_b, frame_c, frame_a]
        (fun i => env_of true (if i = 2 then 113 else -1))) plain_args).trace
        = [frame_a, frame_b, frame_c]
      ∧ invocations (main (world_of [] [frame_a, frame_b, frame_c, frame_a]
          (fun i => env_of true (if i = 2 then 113 else -1))) plain_args).trace = 3
      ∧ renders (main (world_of [] [frame_a, frame_b, frame_c, frame_a]
          (fun i => env_of true (if i = 2 then 113 else -1))) plain_args).trace = 3
      ∧ quit_polled (main (world_of [] [frame_a, frame_b, frame_c, frame_a]
          (fun i => env_of true (if i = 2 then 113 else -1))) plain_args).trace = true
      ∧ captured (after_quit (main (world_of [] [frame_a, frame_b, frame_c, frame_a]
          (fun i => env_of true (if i = 2 then 113 else -1))) plain_args).trace) = []
      ∧ reaches_teardown (main (world_of [] [frame_a, frame_b, frame_c, frame_a]
          (fun i => env_of true (if i = 2 then 113 else -1))) plain_args).trace = true
      ∧ (main (world_of [] [frame_a, frame_b, frame_c, frame_a]
          (fun i => env_of true (if i = 2 then 113 else -1))) plain_args).outcome
        = Outcome.returned 0 :=
  quit_ends_session
    (world_of [] [frame_a, frame_b, frame_c, frame_a]
      (fun i => env_of true (if i = 2 then 113 else -1))) plain_args 3
    (by decide) (by decide) (by decide) (by decide) (by decide)
    (fun i hi => by
      have h2 : i < 2 := by omega
      interval_cases i <;> decide)
    (by decide)


/-- The option `profile` has one use in `main`: apart from the flag given to
the constructor of the factory, the events and the outcome of a run are the
same for either value of the option. -/
theorem main_profile_independent (w : World) (cl : CommandLine) (profile : Bool) :
    (main w (with_profile cl profile)).outcome = (main w cl).outcome
      ∧ (main w (with_profile cl profile)).trace.map forget_profiling
          = (main w cl).trace.map forget_profiling := by
  by_cases hhelp : cl.help = true
  · simp [main, with_profile, hhelp]
  by_cases hcheck : cl.check = true
  swap
  · simp [main, with_profile, hhelp, hcheck]
  cases hnames : w.read_text_file cl.nameslist with
  | none => simp [main, with_profile, hhelp, hcheck, hnames]
  | some class_names =>
    cases hanch : read_anchors w (cl.anchors.getD "") with
    | none => simp [main, with_profile, hhelp, hcheck, hnames, hanch]
    | some parsed =>
      cases parsed with
      | error e => simp [main, with_profile, hhelp, hcheck, hnames, hanch]
      | ok anchor_priors =>
        simp only [main, with_profile, hhelp, hcheck, hnames, hanch]
        by_cases hcreate : (!(w.create cl.type).1 || !(w.create cl.type).2.1
            || !(w.create cl.type).2.2) = true
        · simp [hcreate, forget_profiling]
        by_cases hinit : w.init cl.modelfile = true
        swap
        · simp [hcreate, hinit, forget_profiling]
        by_cases hopen : w.isOpened cl.cameraid = true
        swap
        · simp [hcreate, hinit, hopen, forget_profiling]
        by_cases hdef : (detection_loop w class_names w.frames 0).2 = true
        · simp [hcreate, hinit, hopen, hdef, forget_profiling]
        · simp [hcreate, hinit, hopen, hdef, forget_profiling]

/-- C7, as the code has it: in every run that reaches the teardown,
`runner->print_profiling()` is called exactly once, whatever the option
`profile` says.  The option is handed on only as the flag of the factory
constructor: the factory is constructed once, with the value of the option,
and with the option set to any other value the run has the same outcome and,
that flag apart, the same events in the same order. -/
theorem profiling_printed_once (w : World) (cl : CommandLine)
    (hteardown : reaches_teardown (main w cl).trace = true) :
    profiling_calls (main w cl).trace = 1
      ∧ factory_profiling (main w cl).trace = [cl.profile]
      ∧ ∀ profile : Bool,
          (main w (with_profile cl profile)).outcome = (main w cl).outcome
            ∧ (main w (with_profile cl profile)).trace.map forget_profiling
                = (main w cl).trace.map forget_profiling := by
  refine ⟨?_, ?_, fun profile => main_profile_independent w cl profile⟩
  all_goals
    rcases main_shape w cl with hstart | ⟨class_names, pre, _, _, _, _, p5, p6, p7, hmain⟩
    · rw [hstart.2.1] at hteardown
      exact absurd hteardown (by decide)
    · obtain ⟨q1, q2, q3, _⟩ := detection_loop_quiet w class_names w.frames 0
      rw [hmain] at hteardown ⊢
      by_cases hdef : (detection_loop w class_names w.frames 0).2 = true
      · rw [if_pos hdef]
        simp [profiling_calls_append, p5, q1, profiling_calls, factory_profiling_append, p7, q3,
          factory_profiling]
      · rw [if_neg hdef] at hteardown
        simp [reaches_teardown_append, p6, q2] at hteardown

/-- C7, as the code has it, in a session of one frame ended by `q`. -/
theorem profiling_printed_once_witness :
    profiling_calls (main (world_of [] [frame_a] (fun _ => env_of true 113)) plain_args).trace = 1
      ∧ factory_profiling
          (main (world_of [] [frame_a] (fun _ => env_of true 113)) plain_args).trace
        = [plain_args.profile]
      ∧ ∀ profile : Bool,
          (main (world_of [] [frame_a] (fun _ => env_of true 113))
              (with_profile plain_args profile)).outcome
            = (main (world_of [] [frame_a] (fun _ => env_of true 113)) plain_args).outcome
            ∧ (main (world_of [] [frame_a] (fun _ => env_of true 113))
                (with_profile plain_args profile)).trace.map forget_profiling
              = (main (world_of [] [frame_a] (fun _ => env_of true 113))
                  plain_args).trace.map forget_profiling :=
  profiling_printed_once (world_of [] [frame_a] (fun _ => env_of true 113)) plain_args
    (by decide)

/-- C7 fails as stated: with the option `profile` absent, a session that
reaches the teardown still calls `runner->print_profiling()`. -/
theorem profiling_printed_when_disabled :
    plain_args.profile = false
      ∧ reaches_teardown
          (main (world_of [] [frame_a] (fun _ => env_of true 113)) plain_args).trace = true
      ∧ profiling_calls
          (main (world_of [] [frame_a] (fun _ => env_of true 113)) plain_args).trace = 1 := by
  decide

/-- C2 at the failing input: the camera delivers two frames and every runner
call fails.  The loop goes on after the first failure: the second frame is
captured and run as well, and `main` returns 0. -/
theorem runner_failure_ignored :
    captured (main (world_of [] [frame_a, frame_b] (fun _ => env_of false (-1))) plain_args).trace
        = [frame_a, frame_b]
      ∧ invocations
          (main (world_of [] [frame_a, frame_b] (fun _ => env_of false (-1))) plain_args).trace = 2
      ∧ stderr_lines
          (main (world_of [] [frame_a, frame_b] (fun _ => env_of false (-1))) plain_args).trace
        = ["Failed to run network", "Failed to run network"]
      ∧ (main (world_of [] [frame_a, frame_b] (fun _ => env_of false (-1))) plain_args).outcome
        = Outcome.returned 0 := by
  decide

/-- C5 at the failing input: with `batch=2` the factory is constructed for
batches of two, and the loop still registers a batch of one image. -/
theorem configured_batch_ignored :
    factory_batch
        (main (world_of [] [frame_a] (fun _ => env_of true (-1))) (batch_args 2)).trace = [2]
      ∧ registered
          (main (world_of [] [frame_a] (fun _ => env_of true (-1))) (batch_args 2)).trace
        = [[frame_a]] := by
  decide

/-- C6 at the failing input: when `parser.check()` fails, `main` prints the
errors and returns 0. -/
theorem argument_error_exits_zero :
    main (world_of [] [frame_a] (fun _ => env_of true (-1))) incomplete_args
        = ⟨[Event.printErrors], Outcome.returned 0⟩
      ∧ (main (world_of [] [frame_a] (fun _ => env_of true (-1)))
          incomplete_args).outcome.exit_zero = true := by
  decide

/-- C9 at the failing input: a factory failure and an init failure each write
their own line to the error stream, a camera that does not open writes
nothing. -/
theorem camera_failure_silent :
    stderr_lines (main (failing_world 0) plain_args).trace = ["Failed to create runner"]
      ∧ stderr_lines (main (failing_world 1) plain_args).trace = ["Failed to init runner"]
      ∧ stderr_lines (main (failing_world 2) plain_args).trace = []
      ∧ (main (failing_world 2) plain_args).outcome = Outcome.returned (-1) := by
  decide


/-- Every start-up failure other than a failed argument check ends the run
with a non-zero exit status, before any frame is captured or run. -/
theorem startup_failure_exits_nonzero (w : World) (cl : CommandLine)
    (hargs : cl.help = true ∨ cl.check = true)
    (hfail : loop_entered (main w cl).trace = false) :
    (main w cl).outcome.exit_zero = false
      ∧ captured (main w cl).trace = [] ∧ invocations (main w cl).trace = 0 := by
  rcases main_shape w cl with
    ⟨_, _, h3, h4, h5⟩ | ⟨class_names, pre, _, _, _, _, _, _, _, hmain⟩
  · refine ⟨?_, h3, h4⟩
    cases hz : (main w cl).outcome.exit_zero with
    | false => rfl
    | true =>
      obtain ⟨e1, e2⟩ := h5 hz
      rcases hargs with h | h
      · rw [e1] at h
        exact absurd h (by decide)
      · rw [e2] at h
        exact absurd h (by decide)
  · obtain ⟨_, _, _, q4⟩ := detection_loop_quiet w class_names w.frames 0
    rw [hmain] at hfail
    by_cases hdef : (detection_loop w class_names w.frames 0).2 = true
    · rw [if_pos hdef] at hfail
      simp [loop_entered_append, q4] at hfail
    · rw [if_neg hdef] at hfail
      simp [loop_entered_append, q4] at hfail

/-! ## The anchors file -/

/-- A line that `strtof` cannot convert makes the loop over the anchor lines
end in an exception. -/
theorem parse_anchors_error (erange : String → Bool) (line : String)
    (hbad : strtof_converts line = false) :
    ∀ (lines : List String) (anchor_priors : List ParsedFloat), line ∈ lines →
      ∃ e, parse_anchors erange lines anchor_priors = Except.error e := by
  intro lines
  induction lines with
  | nil => intro _ h; simp at h
  | cons str rest ih =>
    intro anchor_priors hmem
    unfold parse_anchors
    cases hs : stof erange str with
    | error e => exact ⟨e, rfl⟩
    | ok v =>
      rcases List.mem_cons.mp hmem with h | h
      · subst h
        simp [stof, hbad] at hs
      · exact ih (anchor_priors ++ [v]) h

theorem isspace_facts (c : Char) (h : isspace c = true) :
    c.isDigit = false ∧ c ≠ '.' ∧ c ≠ '+' ∧ c ≠ '-' := by
  simp only [isspace, Bool.or_eq_true, decide_eq_true_eq] at h
  rcases h with ((((h | h) | h) | h) | h) | h <;> subst h <;> decide

theorem starts_number_of_float (cs : List Char) (h : is_float_chars cs = true) :
    starts_number cs = true := by
  cases cs with
  | nil => simp [is_float_chars] at h
  | cons d t =>
    cases hd : d.isDigit with
    | true => simp [starts_number, hd]
    | false =>
      by_cases hp : d = '.'
      · subst hp
        cases t with
        | nil => simp [is_float_chars, hd] at h
        | cons e u =>
          cases he : e.isDigit with
          | true => simp [starts_number, he]
          | false => simp [is_float_chars, hd, he] at h
      · simp [is_float_chars, hd, hp] at h

/-- Every text that is a floating-point number is converted by `strtof`; a
line that `strtof` cannot convert is therefore never a floating-point
number. -/
theorem converts_of_float_text (s : String) (h : is_float_text s = true) :
    strtof_converts s = true := by
  unfold is_float_text at h
  unfold strtof_converts
  cases hs : s.data with
  | nil => rw [hs] at h; simp [skip_sign, is_float_chars] at h
  | cons c r =>
    rw [hs] at h
    cases hsp : isspace c with
    | false =>
      rw [List.dropWhile_cons_of_neg (by simp [hsp])]
      exact starts_number_of_float _ h
    | true =>
      obtain ⟨h1, h2, h3, h4⟩ := isspace_facts c hsp
      simp [skip_sign, h3, h4, is_float_chars, h1, h2] at h

/-- C10, as the code has it: whenever the argument check passes and an
anchors file is given, readable and contains a line at whose beginning
`std::stof` finds no number at all (after white space and a sign: no digit,
no point followed by a digit, no `inf` or `nan`; for instance `abc`), the run
ends before the factory is constructed and before the capture loop, with a
non-zero exit status; when the names file was read, it ends by the uncaught
exception of `std::stof`, before any event. -/
theorem unconvertible_anchor_aborts (w : World) (cl : CommandLine) (path : String)
    (lines : List String) (line : String)
    (hcheck : cl.check = true) (hopt : cl.anchors = some path) (hpath : path ≠ "")
    (hread : w.read_text_file path = some lines) (hline : line ∈ lines)
    (hbad : strtof_converts line = false) :
    factory_used (main w cl).trace = false
      ∧ loop_entered (main w cl).trace = false
      ∧ (main w cl).outcome.exit_zero = false
      ∧ (cl.help = false → (w.read_text_file cl.nameslist).isSome = true →
          ∃ e, main w cl = ⟨[], Outcome.uncaught e⟩) := by
  obtain ⟨e, he⟩ := parse_anchors_error w.strtof_erange line hbad lines [] hline
  have hanch : read_anchors w (cl.anchors.getD "") = some (Except.error e) := by
    simp [read_anchors, hopt, hpath, hread, he]
  by_cases hhelp : cl.help = true
  · simp [main, hhelp, factory_used, loop_entered, Outcome.exit_zero]
  cases hnames : w.read_text_file cl.nameslist with
  | none => simp [main, hhelp, hcheck, hnames, factory_used, loop_entered, Outcome.exit_zero]
  | some class_names =>
    simp [main, hhelp, hcheck, hnames, hanch, factory_used, loop_entered, Outcome.exit_zero]

/-- C10, as the code has it, for an anchors file with the lines `1.5` and
`abc`. -/
theorem unconvertible_anchor_aborts_witness :
    factory_used (main (world_of ["1.5", "abc"] [frame_a] (fun _ => env_of true 113))
        anchors_args).trace = false
      ∧ loop_entered (main (world_of ["1.5", "abc"] [frame_a] (fun _ => env_of true 113))
          anchors_args).trace = false
      ∧ (main (world_of ["1.5", "abc"] [frame_a] (fun _ => env_of true 113))
          anchors_args).outcome.exit_zero = false
      ∧ (anchors_args.help = false →
          ((world_of ["1.5", "abc"] [frame_a] (fun _ => env_of true 113)).read_text_file
            anchors_args.nameslist).isSome = true →
          ∃ e, main (world_of ["1.5", "abc"] [frame_a] (fun _ => env_of true 113)) anchors_args
            = ⟨[], Outcome.uncaught e⟩) :=
  unconvertible_anchor_aborts (world_of ["1.5", "abc"] [frame_a] (fun _ => env_of true 113))
    anchors_args "anchors.txt" ["1.5", "abc"] "abc" rfl rfl (by decide) (by decide)
    (by decide) (by decide)

/-- C10 fails as stated: the line `1abc` is not a floating-point number, yet
`std::stof` converts its beginning; the factory is constructed with the
resulting anchor and the run goes on to the capture loop and returns 0. -/
theorem numeric_beginning_accepted :
    is_float_text "1abc" = false
      ∧ factory_anchors (main (world_of ["1abc"] [frame_a] (fun _ => env_of true 113))
          anchors_args).trace = [[⟨"1abc"⟩]]
      ∧ captured (main (world_of ["1abc"] [frame_a] (fun _ => env_of true 113))
          anchors_args).trace = [frame_a]
      ∧ (main (world_of ["1abc"] [frame_a] (fun _ => env_of true 113)) anchors_args).outcome
        = Outcome.returned 0 := by
  decide

end RunYolo
